import Mathlib

/-!
Shallow embedding of the Heksta relay server (src/backend/server.js):
session registry, realtime broadcast hub, and range-streaming download
tracker, together with theorems settling the claims about them.

The in-memory `Map`s of the source (`sessions`, `downloadStats`) are
embedded as association lists with JS-`Map` get/set semantics; the
`wss.clients` set is a list of client records; file-system presence is an
oracle function passed to the download handler.
-/

namespace Heksta

/-- JS `Map.get`: first binding for the key, if any. -/
def mapGet {α : Type} (m : List (String × α)) (k : String) : Option α :=
  match m with
  | [] => none
  | (k', v) :: rest => if k' = k then some v else mapGet rest k

/-- JS `Map.set`: replace the binding for the key, or append a fresh one. -/
def mapSet {α : Type} (m : List (String × α)) (k : String) (v : α) : List (String × α) :=
  match m with
  | [] => [(k, v)]
  | (k', v') :: rest => if k' = k then (k, v) :: rest else (k', v') :: mapSet rest k v

/-- A stored file record, as built by the upload handler (server.js:139-147). -/
structure FileRec where
  id : String
  originalName : String
  filename : String
  path : String
  size : Nat
  mimetype : String
  uploadedAt : Nat
deriving Repr, DecidableEq

/-- A session record, as built by `POST /api/create-session` (server.js:65-73). -/
structure Session where
  id : String
  password : String
  senderName : String
  files : List FileRec
  createdAt : Nat
  active : Bool
  connectedClients : Nat
deriving Repr, DecidableEq

/-- Per-(session,file) download statistics (server.js:407-414). -/
structure DownloadStat where
  sessionId : String
  fileId : String
  started : Nat
  completed : Nat
  failed : Nat
  active : Nat
deriving Repr, DecidableEq

/-- A live websocket in `wss.clients`: its assigned `clientId`, the
`sessionId` it is bound to, and whether `readyState === OPEN`. -/
structure WsClient where
  clientId : String
  sessionId : String
  isOpen : Bool
deriving Repr, DecidableEq

/-- Public view of a file, as put into `files_updated` broadcasts
(server.js:157-162): id, name, size, type only. -/
structure FilePub where
  id : String
  name : String
  size : Nat
  type_ : String
deriving Repr, DecidableEq

/-- Messages the server pushes over websockets. -/
inductive ServerMsg
  | connected (clientId : String) (sessionId senderName : String)
      (fileCount connectedClients : Nat)
  | client_connected (clientId : String) (connectedClients : Nat)
  | client_disconnected (clientId : String) (connectedClients : Nat)
  | files_updated (files : List FilePub)
  | session_closed
  | download_stats (fileId : String) (stats : DownloadStat)
  | download_failed (fileId : String) (error : String) (stats : DownloadStat)
deriving Repr, DecidableEq

/-- One websocket delivery: destination client id and the message. -/
structure Send where
  toClient : String
  msg : ServerMsg
deriving Repr, DecidableEq

/-- The process-wide mutable state: `sessions`, `downloadStats`
(server.js:33-34) and the websocket clients set. -/
structure ServerState where
  sessions : List (String × Session)
  downloadStats : List (String × DownloadStat)
  clients : List WsClient
deriving Repr, DecidableEq

/-- `broadcastToSession` (server.js:395-401): send to every client of the
session whose socket is open; non-open clients are silently skipped. -/
def broadcastToSession (clients : List WsClient) (sessionId : String)
    (message : ServerMsg) : List Send :=
  (clients.filter (fun c => c.sessionId == sessionId && c.isOpen)).map
    (fun c => ⟨c.clientId, message⟩)

/-- `generateSessionId` (server.js:55-57): first 8 characters of the
generated uuid string. The uuid value is an input (the random oracle). -/
def generateSessionId (uuid : String) : String :=
  uuid.take 8

/-- `POST /api/create-session` (server.js:60-93): build and store a fresh
session. `uuid` is the value `uuidv4()` returned, `now` the value of
`Date.now()`. Returns the new session id and the updated state. -/
def createSession (st : ServerState) (uuid password senderName : String)
    (now : Nat) : String × ServerState :=
  let sessionId := generateSessionId uuid
  let session : Session :=
    { id := sessionId
      password := password
      senderName := senderName
      files := []
      createdAt := now
      active := true
      connectedClients := 0 }
  (sessionId, { st with sessions := mapSet st.sessions sessionId session })

/-- Result of `GET /api/session/:sessionId`. -/
inductive GetResult
  | notFound
  | ok (sessionId senderName : String) (fileCount connectedClients : Nat)
      (requiresPassword : Bool)
deriving Repr, DecidableEq

/-- `GET /api/session/:sessionId` (server.js:177-192). -/
def getSession (st : ServerState) (sessionId : String) : GetResult :=
  match mapGet st.sessions sessionId with
  | none => .notFound
  | some s => .ok s.id s.senderName s.files.length s.connectedClients
      (s.password != "")

/-- Result of `POST /api/session/:sessionId/verify`. -/
inductive VerifyResult
  | verified
  | invalidPassword
  | notFound
deriving Repr, DecidableEq

/-- `POST /api/session/:sessionId/verify` (server.js:195-209). JS
truthiness of `session.password` is non-emptiness of the stored string. -/
def verifyPassword (st : ServerState) (sessionId attempt : String) :
    VerifyResult :=
  match mapGet st.sessions sessionId with
  | none => .notFound
  | some s =>
      if s.password != "" && s.password != attempt then .invalidPassword
      else .verified

/-- Result of `POST /api/upload/:sessionId`. `ok` carries the response's
file summaries (id, name, size), server.js:165-172. -/
inductive UploadResult
  | notFound
  | inactive
  | noFiles
  | ok (files : List (String × String × Nat))
deriving Repr, DecidableEq

/-- `POST /api/upload/:sessionId` (server.js:96-174). `incoming` is the
`req.files`-derived record list built at lines 139-147 (empty when the
multipart body carried no files). Returns the HTTP result, the new state
and the websocket deliveries performed. -/
def uploadFiles (st : ServerState) (sessionId : String)
    (incoming : List FileRec) : UploadResult × ServerState × List Send :=
  match mapGet st.sessions sessionId with
  | none => (.notFound, st, [])
  | some session =>
      if !session.active then (.inactive, st, [])
      else if incoming.length = 0 then (.noFiles, st, [])
      else
        let session' := { session with files := session.files ++ incoming }
        let st' := { st with sessions := mapSet st.sessions sessionId session' }
        let sends := broadcastToSession st.clients sessionId
          (.files_updated (session'.files.map
            (fun f => ⟨f.id, f.originalName, f.size, f.mimetype⟩)))
        (.ok (incoming.map (fun f => (f.id, f.originalName, f.size))), st', sends)

/-- The `downloadStats` map key (server.js:405): `sessionId + "-" + fileId`. -/
def statKey (sessionId fileId : String) : String :=
  sessionId ++ "-" ++ fileId

/-- Per-key body of `trackDownloadStart` (server.js:404-423): create the
stat lazily, then `started++; active++`. -/
def trackStartStat (s : Option DownloadStat) (sessionId fileId : String) :
    DownloadStat :=
  let base : DownloadStat := match s with
    | none =>
        { sessionId := sessionId, fileId := fileId
          started := 0, completed := 0, failed := 0, active := 0 }
    | some st => st
  { base with started := base.started + 1, active := base.active + 1 }

/-- Per-key body of `trackDownloadComplete` (server.js:425-442): if the key
is absent, nothing happens; else `completed++; active = max(0, active-1)`
(`Nat` subtraction is exactly the `Math.max 0` clamp). -/
def trackCompleteStat (s : Option DownloadStat) : Option DownloadStat :=
  match s with
  | none => none
  | some st => some { st with completed := st.completed + 1, active := st.active - 1 }

/-- Per-key body of `trackDownloadFailure` (server.js:444-462): if the key
is absent, nothing happens; else `failed++; active = max(0, active-1)`. -/
def trackFailStat (s : Option DownloadStat) : Option DownloadStat :=
  match s with
  | none => none
  | some st => some { st with failed := st.failed + 1, active := st.active - 1 }

/-- `trackDownloadStart` (server.js:404-423): state-level (no broadcast is
performed on start; the source only logs). The `clientId` argument is used
only for logging in the source. -/
def trackDownloadStart (st : ServerState) (sessionId fileId _clientId : String) :
    ServerState :=
  let key := statKey sessionId fileId
  let stats := trackStartStat (mapGet st.downloadStats key) sessionId fileId
  { st with downloadStats := mapSet st.downloadStats key stats }

/-- `trackDownloadComplete` (server.js:425-442): update the stat if present
and broadcast `download_stats` to the session; a no-op with no broadcast
when the key was never created. -/
def trackDownloadComplete (st : ServerState) (sessionId fileId : String) :
    ServerState × List Send :=
  let key := statKey sessionId fileId
  match mapGet st.downloadStats key with
  | none => (st, [])
  | some stats =>
      let stats' := { stats with completed := stats.completed + 1, active := stats.active - 1 }
      ({ st with downloadStats := mapSet st.downloadStats key stats' },
       broadcastToSession st.clients sessionId (.download_stats fileId stats'))

/-- `trackDownloadFailure` (server.js:444-462): update the stat if present
and broadcast `download_failed` to the session; a no-op with no broadcast
when the key was never created. -/
def trackDownloadFailure (st : ServerState) (sessionId fileId error : String) :
    ServerState × List Send :=
  let key := statKey sessionId fileId
  match mapGet st.downloadStats key with
  | none => (st, [])
  | some stats =>
      let stats' := { stats with failed := stats.failed + 1, active := stats.active - 1 }
      ({ st with downloadStats := mapSet st.downloadStats key stats' },
       broadcastToSession st.clients sessionId (.download_failed fileId error stats'))

/-- One download transition for a single (session, file) stat. -/
inductive DlTransition
  | start
  | complete
  | fail
deriving Repr, DecidableEq

/-- Apply one transition to one key's stat, exactly as the three tracker
functions do (server.js:404-462). -/
def stepStat (s : Option DownloadStat) (sessionId fileId : String) :
    DlTransition → Option DownloadStat
  | .start => some (trackStartStat s sessionId fileId)
  | .complete => trackCompleteStat s
  | .fail => trackFailStat s

/-- Apply a sequence of transitions, left to right. -/
def applyTransitions (s : Option DownloadStat) (sessionId fileId : String) :
    List DlTransition → Option DownloadStat
  | [] => s
  | t :: ts => applyTransitions (stepStat s sessionId fileId t) sessionId fileId ts

/-- Number of `start` transitions in a sequence. -/
def dlStarts : List DlTransition → Nat
  | [] => 0
  | .start :: ts => dlStarts ts + 1
  | _ :: ts => dlStarts ts

/-- Number of `complete` or `fail` transitions in a sequence. -/
def dlEnds : List DlTransition → Nat
  | [] => 0
  | .start :: ts => dlEnds ts
  | _ :: ts => dlEnds ts + 1

/-- Number of `complete` transitions in a sequence. -/
def dlCompletes : List DlTransition → Nat
  | [] => 0
  | .complete :: ts => dlCompletes ts + 1
  | _ :: ts => dlCompletes ts

/-- Number of `fail` transitions in a sequence. -/
def dlFails : List DlTransition → Nat
  | [] => 0
  | .fail :: ts => dlFails ts + 1
  | _ :: ts => dlFails ts

/-- Result of `GET /api/download/:sessionId/:fileId` before streaming. -/
inductive DownloadResult
  | sessionNotFound
  | fileNotFound
  | fileNotOnServer
  | streaming
deriving Repr, DecidableEq

/-- `GET /api/download/:sessionId/:fileId`, resolution and tracking phase
(server.js:231-263): resolve session then file; if the on-disk object is
absent (`fs.existsSync`, modelled by the `disk` oracle on paths), call
`trackDownloadFailure` with reason "File not found on server" and answer
404; otherwise record a start and begin streaming. -/
def downloadRequest (st : ServerState) (sessionId fileId clientId : String)
    (disk : String → Bool) : DownloadResult × ServerState × List Send :=
  match mapGet st.sessions sessionId with
  | none => (.sessionNotFound, st, [])
  | some session =>
      match session.files.find? (fun f => f.id == fileId) with
      | none => (.fileNotFound, st, [])
      | some file =>
          if !disk file.path then
            let r := trackDownloadFailure st sessionId fileId "File not found on server"
            (.fileNotOnServer, r.1, r.2)
          else
            (.streaming, trackDownloadStart st sessionId fileId clientId, [])

/-- The response built for a download stream: status code, the
Content-Range header (empty when none is set), declared Content-Length,
and the bytes actually streamed. -/
structure StreamResponse where
  status : Nat
  contentRange : String
  contentLength : Nat
  body : List Nat
deriving Repr, DecidableEq

/-- Range branch of the download handler (server.js:278-296): given the
file's bytes and the parsed `bytes=start-end` header (end optional,
defaulting to `fileSize - 1`), declare a 206 with
`Content-Range: bytes start-end/fileSize` and `Content-Length`
`end - start + 1`, and stream the inclusive slice `[start, end]`
(`fs.createReadStream` with start and end options, both inclusive). -/
def serveRange (content : List Nat) (start : Nat) (endOpt : Option Nat) :
    StreamResponse :=
  let fileSize := content.length
  let e := match endOpt with
    | some e => e
    | none => fileSize - 1
  let chunksize := e - start + 1
  { status := 206
    contentRange := "bytes " ++ toString start ++ "-" ++ toString e ++ "/" ++
      toString fileSize
    contentLength := chunksize
    body := (content.drop start).take chunksize }

/-- Full-file branch of the download handler (server.js:297-309): 200 with
the total length and the whole object. -/
def serveFull (content : List Nat) : StreamResponse :=
  { status := 200
    contentRange := ""
    contentLength := content.length
    body := content }

/-- Events that can occur on a download response stream. `finish` fires
when the response was written out completely; `resError`/`streamError`
are error events on the response or the read stream; `closedEarly` is the
`close` event the response emits when the client disconnects before the
stream has finished (no `finish`, and in that case no `error`, fires). -/
inductive ResEvent
  | finish
  | resError (msg : String)
  | streamError (msg : String)
  | closedEarly
deriving Repr, DecidableEq

/-- Event handling installed by the download handler (server.js:265-308):
`res.on finish -> trackDownloadComplete`, `res.on error -> trackDownloadFailure`,
`fileStream.on error -> trackDownloadFailure`. No handler is installed for
the response's `close` event, so an early termination by client disconnect
runs no tracking code. -/
def downloadResDispatch (st : ServerState) (sessionId fileId : String) :
    ResEvent → ServerState × List Send
  | .finish => trackDownloadComplete st sessionId fileId
  | .resError m => trackDownloadFailure st sessionId fileId m
  | .streamError m => trackDownloadFailure st sessionId fileId m
  | .closedEarly => (st, [])

/-- Result of `POST /api/session/:sessionId/close`. -/
inductive CloseResult
  | notFound
  | closed
deriving Repr, DecidableEq

/-- `POST /api/session/:sessionId/close` (server.js:313-336): mark the
session inactive (it stays in `sessions`), delete its upload directory
(disk effect, outside this state), and broadcast `session_closed` to the
session's clients. -/
def closeSession (st : ServerState) (sessionId : String) :
    CloseResult × ServerState × List Send :=
  match mapGet st.sessions sessionId with
  | none => (.notFound, st, [])
  | some session =>
      let session' := { session with active := false }
      let st' := { st with sessions := mapSet st.sessions sessionId session' }
      (.closed, st', broadcastToSession st.clients sessionId .session_closed)

/-- Events on an attached websocket after the connection handler has run. -/
inductive WsEvent
  | message (payload : String)
  | close
  | socketError (msg : String)
deriving Repr, DecidableEq

/-- Per-connection event handling installed by `wss.on('connection')`
(server.js:339-392): the handler registers `ws.on('close')` (lines
375-387) and `ws.on('error')` (lines 389-391, log only) and nothing else —
in particular no `message` handler, so an incoming websocket message runs
no application code: the state is unchanged and nothing is sent. On
`close`, the ws library drops the socket from `wss.clients`, the session's
client count is decremented with a floor of 0, and `client_disconnected`
is broadcast to the session. -/
def wsDispatch (st : ServerState) (clientId sessionId : String) :
    WsEvent → ServerState × List Send
  | .message _ => (st, [])
  | .socketError _ => (st, [])
  | .close =>
      let clients' := st.clients.filter (fun c => c.clientId != clientId)
      match mapGet st.sessions sessionId with
      | none => ({ st with clients := clients' }, [])
      | some session =>
          let session' := { session with connectedClients := session.connectedClients - 1 }
          let st' := { st with
            sessions := mapSet st.sessions sessionId session'
            clients := clients' }
          (st', broadcastToSession clients' sessionId
            (.client_disconnected clientId session'.connectedClients))

/-- A client-to-server realtime message as the spec describes it after
parsing: a declared type and an optional target connection id. The source
never parses incoming messages, so this type exists only to state what the
spec expects. -/
structure ClientSignal where
  msgType : String
  targetId : Option String
deriving Repr, DecidableEq

/-- Modelled from the spec (not from the source, which has no message
handler): the recipients the spec's `onMessage` relay would deliver a
parsed message to — the single target when `targetId` is carried,
otherwise every other open connection of the sender's session; nothing
when the declared type is outside the allowed set. -/
def c1ExpectedRecipients (clients : List WsClient) (senderId sessionId : String)
    (sig : ClientSignal) : List String :=
  if sig.msgType = "offer" ∨ sig.msgType = "answer" ∨
      sig.msgType = "ice-candidate" ∨ sig.msgType = "file-metadata" then
    match sig.targetId with
    | some t => [t]
    | none =>
        (clients.filter (fun c =>
          c.sessionId == sessionId && c.isOpen && c.clientId != senderId)).map
          (fun c => c.clientId)
  else []

/-! ### Concrete fixtures used by witnesses and counterexamples -/

/-- A stored file in session `sess0001`. -/
def exFile : FileRec :=
  { id := "file0001", originalName := "a.txt", filename := "5-a.txt"
    path := "uploads/sess0001/5-a.txt", size := 3, mimetype := "text/plain"
    uploadedAt := 5 }

/-- A live password-protected session holding one file, two clients. -/
def exSession : Session :=
  { id := "sess0001", password := "pw", senderName := "Alice"
    files := [exFile], createdAt := 0, active := true, connectedClients := 2 }

/-- A live password-free session with no files. -/
def exSession2 : Session :=
  { id := "sess0002", password := "", senderName := "Bob"
    files := [], createdAt := 0, active := true, connectedClients := 1 }

/-- A closed (inactive) session. -/
def exSession3 : Session :=
  { id := "sess0003", password := "", senderName := "Carol"
    files := [], createdAt := 0, active := false, connectedClients := 0 }

/-- Open sockets of `sess0001`. -/
def exClientA : WsClient := ⟨"clientaa", "sess0001", true⟩

/-- Second open socket of `sess0001`. -/
def exClientB : WsClient := ⟨"clientbb", "sess0001", true⟩

/-- Open socket of `sess0002`. -/
def exClientC : WsClient := ⟨"clientcc", "sess0002", true⟩

/-- A no-longer-open socket of `sess0001`. -/
def exClientD : WsClient := ⟨"clientdd", "sess0001", false⟩

/-- A concrete server state: three sessions, no download stats yet, four
registered sockets. -/
def exState : ServerState :=
  { sessions := [("sess0001", exSession), ("sess0002", exSession2),
                 ("sess0003", exSession3)]
    downloadStats := []
    clients := [exClientA, exClientB, exClientC, exClientD] }

/-- `exState` with one download stat already recorded for
(`sess0001`, `file0001`): one start, still active. -/
def exStatState : ServerState :=
  { exState with
    downloadStats := [(statKey "sess0001" "file0001",
      ⟨"sess0001", "file0001", 1, 0, 0, 1⟩)] }

/-- A live session whose id is the 8-character string `aaaaaaaa`. -/
def exDupSession : Session :=
  { id := "aaaaaaaa", password := "", senderName := "Dave"
    files := [], createdAt := 1, active := true, connectedClients := 0 }

/-- A state holding only `exDupSession`. -/
def exDupState : ServerState :=
  { sessions := [("aaaaaaaa", exDupSession)]
    downloadStats := []
    clients := [] }

/-- A disk oracle on which no path exists. -/
def noDisk : String → Bool := fun _ => false

/-- The state right after a download of (`sess0001`, `file0001`) started. -/
def exActiveDlState : ServerState :=
  trackDownloadStart exState "sess0001" "file0001" "clientaa"

/-! ### Helper lemmas -/

theorem mapGet_mapSet_self {α : Type} (m : List (String × α)) (k : String) (v : α) :
    mapGet (mapSet m k v) k = some v := by
  induction m with
  | nil => simp [mapGet, mapSet]
  | cons hd tl ih =>
      obtain ⟨k', v'⟩ := hd
      by_cases h : k' = k
      · simp [mapGet, mapSet, h]
      · simp [mapGet, mapSet, h, ih]

theorem applyTransitions_append (s : Option DownloadStat) (sid fid : String)
    (p q : List DlTransition) :
    applyTransitions s sid fid (p ++ q) =
      applyTransitions (applyTransitions s sid fid p) sid fid q := by
  induction p generalizing s with
  | nil => simp [applyTransitions]
  | cons t ts ih => simp [applyTransitions, ih]

theorem dlStarts_append (p q : List DlTransition) :
    dlStarts (p ++ q) = dlStarts p + dlStarts q := by
  induction p with
  | nil => simp [dlStarts]
  | cons t ts ih => cases t <;> simp [dlStarts, ih] <;> omega

theorem dlEnds_append (p q : List DlTransition) :
    dlEnds (p ++ q) = dlEnds p + dlEnds q := by
  induction p with
  | nil => simp [dlEnds]
  | cons t ts ih => cases t <;> simp [dlEnds, ih] <;> omega

theorem dlCompletes_append (p q : List DlTransition) :
    dlCompletes (p ++ q) = dlCompletes p + dlCompletes q := by
  induction p with
  | nil => simp [dlCompletes]
  | cons t ts ih => cases t <;> simp [dlCompletes, ih] <;> omega

theorem dlFails_append (p q : List DlTransition) :
    dlFails (p ++ q) = dlFails p + dlFails q := by
  induction p with
  | nil => simp [dlFails]
  | cons t ts ih => cases t <;> simp [dlFails, ih] <;> omega

theorem dlEnds_eq_completes_add_fails (p : List DlTransition) :
    dlEnds p = dlCompletes p + dlFails p := by
  induction p with
  | nil => simp [dlEnds, dlCompletes, dlFails]
  | cons t ts ih => cases t <;> simp [dlEnds, dlCompletes, dlFails, ih] <;> omega

/-- Core lemma for the DownloadStat invariant: on a prefix-balanced
transition sequence (never more completes+fails than starts in any
prefix), the tracker's counters equal the sequence's transition counts and
`active` is the exact surplus of starts over ends. -/
theorem applyTransitions_balanced (sid fid : String) (p : List DlTransition)
    (hb : ∀ n, dlEnds (p.take n) ≤ dlStarts (p.take n)) :
    (applyTransitions none sid fid p = none ∧ dlStarts p = 0 ∧ dlEnds p = 0) ∨
    (∃ st, applyTransitions none sid fid p = some st ∧
      st.started = dlStarts p ∧ st.completed = dlCompletes p ∧
      st.failed = dlFails p ∧ st.active = dlStarts p - dlEnds p ∧
      dlEnds p ≤ dlStarts p) := by
  induction p using List.reverseRecOn with
  | nil =>
      left
      simp [applyTransitions, dlStarts, dlEnds]
  | append_singleton q t ih =>
      have hbq : ∀ n, dlEnds (q.take n) ≤ dlStarts (q.take n) := by
        intro n
        rcases le_or_lt n q.length with hn | hn
        · have : (q ++ [t]).take n = q.take n := List.take_append_of_le_length hn
          have h := hb n
          rwa [this] at h
        · have hq : q.take n = q := List.take_of_length_le (le_of_lt hn)
          have hfull : (q ++ [t]).take q.length = q := by
            rw [List.take_append_of_le_length le_rfl, List.take_length]
          have h := hb q.length
          rw [hfull] at h
          rwa [hq]
      have hlast : dlEnds (q ++ [t]) ≤ dlStarts (q ++ [t]) := by
        have h := hb (q ++ [t]).length
        rwa [List.take_length] at h
      have happ : applyTransitions none sid fid (q ++ [t]) =
          applyTransitions (applyTransitions none sid fid q) sid fid [t] :=
        applyTransitions_append none sid fid q [t]
      rcases ih hbq with ⟨hnone, hst, hen⟩ | ⟨st, hsome, h1, h2, h3, h4, h5⟩
      · cases t with
        | start =>
            right
            refine ⟨⟨sid, fid, 1, 0, 0, 1⟩, ?_, ?_, ?_, ?_, ?_, ?_⟩ <;>
              simp_all [applyTransitions, stepStat, trackStartStat,
                dlStarts_append, dlEnds_append, dlCompletes_append,
                dlFails_append, dlStarts, dlEnds, dlCompletes, dlFails,
                dlEnds_eq_completes_add_fails]
        | complete =>
            exfalso
            rw [dlEnds_append, dlStarts_append] at hlast
            simp [dlEnds, dlStarts, hst, hen] at hlast
        | fail =>
            exfalso
            rw [dlEnds_append, dlStarts_append] at hlast
            simp [dlEnds, dlStarts, hst, hen] at hlast
      · rw [dlEnds_append, dlStarts_append] at hlast
        cases t with
        | start =>
            right
            refine ⟨{ st with started := st.started + 1, active := st.active + 1 },
              ?_, ?_, ?_, ?_, ?_, ?_⟩
            · rw [happ, hsome]
              simp [applyTransitions, stepStat, trackStartStat]
            · simp [dlStarts_append, dlStarts, h1]
            · simp [dlCompletes_append, dlCompletes, h2]
            · simp [dlFails_append, dlFails, h3]
            · simp [dlStarts_append, dlEnds_append, dlStarts, dlEnds]
              omega
            · simp [dlStarts_append, dlEnds_append, dlStarts, dlEnds]
              omega
        | complete =>
            right
            have hcap : dlEnds q + 1 ≤ dlStarts q := by
              simpa [dlEnds, dlStarts] using hlast
            refine ⟨{ st with completed := st.completed + 1, active := st.active - 1 },
              ?_, ?_, ?_, ?_, ?_, ?_⟩
            · rw [happ, hsome]
              simp [applyTransitions, stepStat, trackCompleteStat]
            · simp [dlStarts_append, dlStarts, h1]
            · simp [dlCompletes_append, dlCompletes, h2]
            · simp [dlFails_append, dlFails, h3]
            · simp [dlStarts_append, dlEnds_append, dlStarts, dlEnds]
              omega
            · simp [dlStarts_append, dlEnds_append, dlStarts, dlEnds]
              omega
        | fail =>
            right
            have hcap : dlEnds q + 1 ≤ dlStarts q := by
              simpa [dlEnds, dlStarts] using hlast
            refine ⟨{ st with failed := st.failed + 1, active := st.active - 1 },
              ?_, ?_, ?_, ?_, ?_, ?_⟩
            · rw [happ, hsome]
              simp [applyTransitions, stepStat, trackFailStat]
            · simp [dlStarts_append, dlStarts, h1]
            · simp [dlCompletes_append, dlCompletes, h2]
            · simp [dlFails_append, dlFails, h3]
            · simp [dlStarts_append, dlEnds_append, dlStarts, dlEnds]
              omega
            · simp [dlStarts_append, dlEnds_append, dlStarts, dlEnds]
              omega

/-! ### Claim theorems -/

/-- C8: for an unknown session id `verifyPassword` answers NotFound; for an
existing session with no password set (empty string) it answers Verified
for every attempt including the empty one; for an existing session with a
password set it answers Verified exactly when the attempt is a
case-sensitive exact match, and InvalidPassword otherwise. -/
theorem verifyPassword_spec (st : ServerState) (sid attempt : String) :
    (mapGet st.sessions sid = none → verifyPassword st sid attempt = .notFound) ∧
    (∀ s, mapGet st.sessions sid = some s →
      (s.password = "" → verifyPassword st sid attempt = .verified) ∧
      (s.password ≠ "" →
        (verifyPassword st sid attempt = .verified ↔ attempt = s.password) ∧
        (verifyPassword st sid attempt = .invalidPassword ↔ attempt ≠ s.password))) := by
  refine ⟨fun h => by simp [verifyPassword, h], fun s hs => ⟨fun hp => ?_, fun hp => ?_⟩⟩
  · simp [verifyPassword, hs, hp]
  · by_cases heq : attempt = s.password
    · subst heq
      simp [verifyPassword, hs]
    · have : s.password ≠ attempt := fun h => heq h.symm
      constructor
      · constructor
        · intro hv
          exfalso
          simp [verifyPassword, hs, hp, this] at hv
        · intro h
          exact absurd h heq
      · constructor
        · intro _
          exact heq
        · intro _
          simp [verifyPassword, hs, hp, this]

/-- C8 witness: concrete session `sess0001` stores password `pw`: the
matching attempt verifies, a non-matching one is rejected; `sess0002` has
no password and verifies the empty attempt; an unknown id is NotFound. -/
theorem verifyPassword_spec_witness :
    verifyPassword exState "sess0001" "pw" = .verified ∧
    verifyPassword exState "sess0001" "PW" = .invalidPassword ∧
    verifyPassword exState "sess0002" "" = .verified ∧
    verifyPassword exState "nosuchid" "" = .notFound := by
  have h1 := (verifyPassword_spec exState "sess0001" "pw").2 exSession (by decide)
  have h2 := (verifyPassword_spec exState "sess0001" "PW").2 exSession (by decide)
  have h3 := (verifyPassword_spec exState "sess0002" "").2 exSession2 (by decide)
  have h4 := (verifyPassword_spec exState "nosuchid" "").1 (by decide)
  refine ⟨?_, ?_, ?_, h4⟩
  · exact ((h1.2 (by decide)).1).mpr (by decide)
  · exact ((h2.2 (by decide)).2).mpr (by decide)
  · exact h3.1 (by decide)

/-- C9: uploading to a session whose liveness flag is false always fails
with InactiveSession and leaves the whole state (in particular the
session's file list) unchanged, with no broadcast; uploading to an unknown
session fails with NotFound, also without effect. -/
theorem upload_inactive_spec (st : ServerState) (sid : String)
    (incoming : List FileRec) :
    (mapGet st.sessions sid = none →
      uploadFiles st sid incoming = (.notFound, st, [])) ∧
    (∀ s, mapGet st.sessions sid = some s → s.active = false →
      uploadFiles st sid incoming = (.inactive, st, [])) := by
  constructor
  · intro h
    simp [uploadFiles, h]
  · intro s hs ha
    simp [uploadFiles, hs, ha]

/-- C9 witness: `sess0003` is inactive, so an upload of one file record is
rejected with InactiveSession and the state survives untouched; an unknown
session id yields NotFound. -/
theorem upload_inactive_spec_witness :
    uploadFiles exState "sess0003" [exFile] = (.inactive, exState, []) ∧
    uploadFiles exState "nosuchid" [exFile] = (.notFound, exState, []) := by
  refine ⟨(upload_inactive_spec exState "sess0003" [exFile]).2 exSession3 (by decide) (by decide),
    (upload_inactive_spec exState "nosuchid" [exFile]).1 (by decide)⟩

/-- C10: an upload against an existing, active session whose multipart body
carried zero files fails with the `No files uploaded` 400 error, and the
state is unchanged — no file-list mutation and no `files_updated`
broadcast. -/
theorem upload_noFiles_spec (st : ServerState) (sid : String) (s : Session)
    (hs : mapGet st.sessions sid = some s) (ha : s.active = true) :
    uploadFiles st sid [] = (.noFiles, st, []) := by
  simp [uploadFiles, hs, ha]

/-- C10 witness: an empty upload to active session `sess0001` answers
`noFiles` and leaves the state unchanged with no sends. -/
theorem upload_noFiles_spec_witness :
    uploadFiles exState "sess0001" [] = (.noFiles, exState, []) :=
  upload_noFiles_spec exState "sess0001" exSession (by decide) (by decide)

/-- C1 counterexample: the connection handler installs no `message`
handler, so a realtime message of allowed type `offer` from client
`clientaa` of `sess0001` triggers no state change and no delivery at all —
while the claimed relay would deliver it (with senderId attached) to the
other open connection `clientbb` of the session. -/
theorem wsMessage_counterexample :
    wsDispatch exState "clientaa" "sess0001" (.message "signal-offer") =
      (exState, []) ∧
    c1ExpectedRecipients exState.clients "clientaa" "sess0001"
      ⟨"offer", none⟩ = ["clientbb"] := by
  constructor
  · rfl
  · decide

/-- C1 (amended): every realtime message received on an attached
connection is silently dropped — the connection handler registers no
message handler, so the state is unchanged and nothing is sent to anyone,
whatever the payload and whether or not its declared type is allowed. -/
theorem wsMessage_dropped (st : ServerState) (clientId sessionId payload : String) :
    wsDispatch st clientId sessionId (.message payload) = (st, []) :=
  rfl

/-- C6: the download handler tracks `finish` and `error` events only; the
early-close event a client disconnect produces runs no tracking code, so
with one download started (stat active = 1) the stat still shows
active = 1 and failed = 0 afterwards — the early termination is silently
ignored instead of being recorded as a failure. -/
theorem download_disconnect_ignored :
    downloadResDispatch exActiveDlState "sess0001" "file0001" .closedEarly =
      (exActiveDlState, []) ∧
    mapGet exActiveDlState.downloadStats (statKey "sess0001" "file0001") =
      some ⟨"sess0001", "file0001", 1, 0, 0, 1⟩ := by
  exact ⟨rfl, by decide⟩

/-- C2 counterexample: closing live session `sess0001` succeeds, but a
subsequent `get` on that id does NOT return NotFound — the close handler
only flips the liveness flag and leaves the session in the registry, so
`get` still answers with the session's info. -/
theorem closeSession_get_counterexample :
    (closeSession exState "sess0001").1 = .closed ∧
    getSession (closeSession exState "sess0001").2.1 "sess0001" =
      .ok "sess0001" "Alice" 1 2 true ∧
    getSession (closeSession exState "sess0001").2.1 "sess0001" ≠ .notFound := by
  decide

/-- C2 (amended): closing a live session broadcasts `session_closed` to
every open connection of that session and to no connection bound to any
other session; afterwards the session remains in the registry with its
liveness flag false, so a subsequent `get` of the id still succeeds
(returns the session info, not NotFound). -/
theorem closeSession_spec (st : ServerState) (sid : String) (s : Session)
    (h : mapGet st.sessions sid = some s) :
    (closeSession st sid).1 = .closed ∧
    (∀ c ∈ st.clients, c.sessionId = sid → c.isOpen = true →
      (⟨c.clientId, ServerMsg.session_closed⟩ : Send) ∈ (closeSession st sid).2.2) ∧
    (∀ snd ∈ (closeSession st sid).2.2,
      snd.msg = ServerMsg.session_closed ∧
      ∃ c ∈ st.clients, c.clientId = snd.toClient ∧ c.sessionId = sid ∧
        c.isOpen = true) ∧
    mapGet ((closeSession st sid).2.1).sessions sid = some { s with active := false } ∧
    getSession (closeSession st sid).2.1 sid ≠ .notFound := by
  have hclose : closeSession st sid =
      (.closed, { st with sessions := mapSet st.sessions sid { s with active := false } },
        broadcastToSession st.clients sid .session_closed) := by
    simp [closeSession, h]
  have hget : mapGet (mapSet st.sessions sid { s with active := false }) sid =
      some { s with active := false } := mapGet_mapSet_self _ _ _
  refine ⟨by rw [hclose], ?_, ?_, by rw [hclose]; exact hget, ?_⟩
  · intro c hc hsid hopen
    rw [hclose]
    simp only [broadcastToSession, List.mem_map, List.mem_filter]
    exact ⟨c, ⟨hc, by simp [hsid, hopen]⟩, rfl⟩
  · intro snd hsnd
    rw [hclose] at hsnd
    simp only [broadcastToSession, List.mem_map, List.mem_filter] at hsnd
    obtain ⟨c, ⟨hc, hcond⟩, heq⟩ := hsnd
    simp only [Bool.and_eq_true, beq_iff_eq] at hcond
    exact ⟨by rw [← heq], c, hc, by rw [← heq], hcond.1, hcond.2⟩
  · rw [hclose]
    simp [getSession, hget]

/-- C2 witness: applying the close theorem at the concrete state: the open
`sess0001` clients receive `session_closed` and `get` afterwards is still
not NotFound. -/
theorem closeSession_spec_witness :
    mapGet exState.sessions "sess0001" = some exSession ∧
    (⟨"clientaa", ServerMsg.session_closed⟩ : Send) ∈ (closeSession exState "sess0001").2.2 ∧
    getSession (closeSession exState "sess0001").2.1 "sess0001" ≠ .notFound := by
  have h : mapGet exState.sessions "sess0001" = some exSession := by decide
  have hs := closeSession_spec exState "sess0001" exSession h
  exact ⟨h, hs.2.1 exClientA (by decide) (by decide) (by decide), hs.2.2.2.2⟩

/-- C5 counterexample: session ids are taken straight from the generator
with no collision check: creating a session while a live session with id
`aaaaaaaa` exists, with a uuid whose first 8 characters are `aaaaaaaa`,
yields exactly that same id (and overwrites the live session), so the new
id is not distinct from every other currently-live session's id. -/
theorem createSession_unique_counterexample :
    mapGet exDupState.sessions "aaaaaaaa" = some exDupSession ∧
    exDupSession.active = true ∧
    (createSession exDupState "aaaaaaaa-1111-2222-3333-444444444444" "" "Eve" 7).1 =
      "aaaaaaaa" := by
  decide

/-- C5 (amended): the identifier of a created session is the first 8
characters of the generated uuid — exactly 8 characters whenever the uuid
has at least 8 — and the stored session is initialized with the given
password and sender name, an empty file list, connection count 0 and
liveness true; uniqueness against live sessions is not checked (a
colliding id replaces the existing session's registry entry). -/
theorem createSession_spec (st : ServerState) (uuid password senderName : String)
    (now : Nat) (h : 8 ≤ uuid.length) :
    (createSession st uuid password senderName now).1.length = 8 ∧
    mapGet (createSession st uuid password senderName now).2.sessions
        (createSession st uuid password senderName now).1 =
      some { id := generateSessionId uuid, password := password
             senderName := senderName, files := [], createdAt := now
             active := true, connectedClients := 0 } := by
  constructor
  · simp only [createSession, generateSessionId]
    have hx : uuid.length = uuid.data.length := rfl
    rw [String.take_eq]
    simp only [String.length, List.length_take]
    omega
  · simp only [createSession]
    exact mapGet_mapSet_self _ _ _

/-- C5 witness: a 36-character uuid yields an 8-character id and a fresh
empty session record stored under it. -/
theorem createSession_spec_witness :
    (createSession exState "12ab34cd-5678-90ef-1234-567890abcdef" "pw" "Fay" 9).1.length = 8 ∧
    mapGet (createSession exState "12ab34cd-5678-90ef-1234-567890abcdef" "pw" "Fay" 9).2.sessions
        (createSession exState "12ab34cd-5678-90ef-1234-567890abcdef" "pw" "Fay" 9).1 =
      some { id := generateSessionId "12ab34cd-5678-90ef-1234-567890abcdef"
             password := "pw", senderName := "Fay", files := [], createdAt := 9
             active := true, connectedClients := 0 } :=
  createSession_spec exState "12ab34cd-5678-90ef-1234-567890abcdef" "pw" "Fay" 9
    (by decide)

/-- C4 counterexample: the very first download attempt for
(`sess0001`, `file0001`) with the on-disk object absent answers 404, but
records NO failed transition and broadcasts nothing: `trackDownloadFailure`
is a no-op when no DownloadStat exists yet for the key, and the stats map
stays empty. -/
theorem download_missing_counterexample :
    (downloadRequest exState "sess0001" "file0001" "clientaa" noDisk).1 =
      .fileNotOnServer ∧
    (downloadRequest exState "sess0001" "file0001" "clientaa" noDisk).2.1 = exState ∧
    (downloadRequest exState "sess0001" "file0001" "clientaa" noDisk).2.2 = [] ∧
    mapGet (downloadRequest exState "sess0001" "file0001" "clientaa" noDisk).2.1.downloadStats
      (statKey "sess0001" "file0001") = none := by
  decide

/-- C4 (amended): when the session and file resolve but the on-disk object
is absent, the handler answers NotFound and calls the failure tracker with
reason `File not found on server`; the failed transition and the
`download_failed` broadcast actually happen only when a DownloadStat
already exists for the key — on a first attempt nothing is recorded and
nothing is broadcast. -/
theorem download_missing_spec (st : ServerState) (sid fid cid : String)
    (disk : String → Bool) (s : Session) (f : FileRec)
    (hs : mapGet st.sessions sid = some s)
    (hf : s.files.find? (fun x => x.id == fid) = some f)
    (hd : disk f.path = false) :
    (downloadRequest st sid fid cid disk).1 = .fileNotOnServer ∧
    (mapGet st.downloadStats (statKey sid fid) = none →
      (downloadRequest st sid fid cid disk).2.1 = st ∧
      (downloadRequest st sid fid cid disk).2.2 = []) ∧
    (∀ stats, mapGet st.downloadStats (statKey sid fid) = some stats →
      mapGet (downloadRequest st sid fid cid disk).2.1.downloadStats (statKey sid fid) =
        some { stats with failed := stats.failed + 1, active := stats.active - 1 } ∧
      (downloadRequest st sid fid cid disk).2.2 =
        broadcastToSession st.clients sid
          (.download_failed fid "File not found on server"
            { stats with failed := stats.failed + 1, active := stats.active - 1 })) := by
  have hreq : downloadRequest st sid fid cid disk =
      (.fileNotOnServer,
        (trackDownloadFailure st sid fid "File not found on server").1,
        (trackDownloadFailure st sid fid "File not found on server").2) := by
    simp [downloadRequest, hs, hf, hd]
  refine ⟨by rw [hreq], fun hnone => ?_, fun stats hsome => ?_⟩
  · rw [hreq]
    simp [trackDownloadFailure, hnone]
  · rw [hreq]
    constructor
    · simp only [trackDownloadFailure, hsome]
      exact mapGet_mapSet_self _ _ _
    · simp [trackDownloadFailure, hsome]

/-- C4 witness: with a DownloadStat already present (one active start) and
the object gone from disk, the failed transition is recorded (failed 1,
active 0) and `download_failed` with reason `File not found on server` is
broadcast to the open `sess0001` clients. -/
theorem download_missing_spec_witness :
    (downloadRequest exStatState "sess0001" "file0001" "clientaa" noDisk).1 =
      .fileNotOnServer ∧
    mapGet (downloadRequest exStatState "sess0001" "file0001" "clientaa" noDisk).2.1.downloadStats
      (statKey "sess0001" "file0001") =
      some ⟨"sess0001", "file0001", 1, 0, 1, 0⟩ := by
  have h := download_missing_spec exStatState "sess0001" "file0001" "clientaa"
    noDisk exSession exFile (by decide) (by decide) (by decide)
  exact ⟨h.1, ((h.2.2 ⟨"sess0001", "file0001", 1, 0, 0, 1⟩ (by decide)).1)⟩

/-- The stat reached by the transition sequence start, complete, fail:
the clamped `active` no longer equals started - completed - failed. -/
def exBadStat : DownloadStat := ⟨"sess0001", "file0001", 1, 1, 1, 0⟩

/-- C3 counterexample: the transition sequence start, complete, fail (a
reachable one: a finished download followed by a failure tracked without a
start, as the missing-file path does) yields started 1, completed 1,
failed 1 but `active` clamped to 0, and 0 is not equal to
1 - 1 - 1 = -1 — the equation fails after the third transition. -/
theorem downloadStat_invariant_counterexample :
    applyTransitions none "sess0001" "file0001"
      [.start, .complete, .fail] = some exBadStat ∧
    (exBadStat.active : Int) ≠
      (exBadStat.started : Int) - exBadStat.completed - exBadStat.failed := by
  exact ⟨by decide, by decide⟩

/-- C3 (amended): on every transition sequence in which completes and
fails never outnumber starts in any prefix (true of matched start/finish
pairs; violated by the tracker's unguarded failure path), the equation
`active = started - completed - failed` holds after each individual
transition, and all four counters are at all times ≥ 0; for unbalanced
sequences `active` is clamped at 0 and the equation can fail. -/
theorem downloadStat_invariant (sid fid : String) (ts : List DlTransition)
    (hb : ∀ n, n ≤ ts.length → dlEnds (ts.take n) ≤ dlStarts (ts.take n)) :
    ∀ n st, applyTransitions none sid fid (ts.take n) = some st →
      (st.active : Int) = (st.started : Int) - st.completed - st.failed ∧
      0 ≤ (st.started : Int) ∧ 0 ≤ (st.completed : Int) ∧
      0 ≤ (st.failed : Int) ∧ 0 ≤ (st.active : Int) := by
  intro n st hst
  have hbp : ∀ m, dlEnds ((ts.take n).take m) ≤ dlStarts ((ts.take n).take m) := by
    intro m
    rw [List.take_take]
    rcases le_or_lt (min m n) ts.length with hmn | hmn
    · exact hb (min m n) hmn
    · rw [List.take_of_length_le (le_of_lt hmn)]
      have h := hb ts.length le_rfl
      rwa [List.take_length] at h
  rcases applyTransitions_balanced sid fid (ts.take n) hbp with
    ⟨hnone, -, -⟩ | ⟨st', hsome, h1, h2, h3, h4, h5⟩
  · rw [hst] at hnone
    exact absurd hnone (by simp)
  · rw [hst] at hsome
    obtain rfl : st = st' := Option.some.inj hsome
    have hce := dlEnds_eq_completes_add_fails (ts.take n)
    refine ⟨?_, by positivity, by positivity, by positivity, by positivity⟩
    omega

/-- C3 witness: the balanced sequence start, complete satisfies the
prefix condition, and after both transitions the tracker shows
started 1, completed 1, active 0 with the equation holding. -/
theorem downloadStat_invariant_witness :
    (∀ n, n ≤ 2 → dlEnds (List.take n [DlTransition.start, DlTransition.complete]) ≤
      dlStarts (List.take n [DlTransition.start, DlTransition.complete])) ∧
    applyTransitions none "sess0001" "file0001"
      (List.take 2 [DlTransition.start, DlTransition.complete]) =
      some ⟨"sess0001", "file0001", 1, 1, 0, 0⟩ ∧
    ((⟨"sess0001", "file0001", 1, 1, 0, 0⟩ : DownloadStat).active : Int) =
      ((⟨"sess0001", "file0001", 1, 1, 0, 0⟩ : DownloadStat).started : Int) -
      (⟨"sess0001", "file0001", 1, 1, 0, 0⟩ : DownloadStat).completed -
      (⟨"sess0001", "file0001", 1, 1, 0, 0⟩ : DownloadStat).failed := by
  have hb : ∀ n, n ≤ 2 → dlEnds (List.take n [DlTransition.start, DlTransition.complete]) ≤
      dlStarts (List.take n [DlTransition.start, DlTransition.complete]) := by decide
  have happ : applyTransitions none "sess0001" "file0001"
      (List.take 2 [DlTransition.start, DlTransition.complete]) =
      some ⟨"sess0001", "file0001", 1, 1, 0, 0⟩ := by decide
  exact ⟨hb, happ,
    (downloadStat_invariant "sess0001" "file0001"
      [DlTransition.start, DlTransition.complete] hb 2 _ happ).1⟩

/-- C7: for a range request `bytes=start-end` with the range inside the
stored object, the response is a 206 declaring
`Content-Range: bytes start-end/total` and Content-Length
`end - start + 1`, and the streamed body is exactly the inclusive slice
[start, end] of the object's bytes (`end - start + 1` of them, byte `i` of
the body being byte `start + i` of the object); an omitted end defaults to
the final byte. -/
theorem serveRange_spec (content : List Nat) (s e : Nat)
    (hse : s ≤ e) (he : e < content.length) :
    (serveRange content s (some e)).status = 206 ∧
    (serveRange content s (some e)).contentLength = e - s + 1 ∧
    (serveRange content s (some e)).contentRange =
      "bytes " ++ toString s ++ "-" ++ toString e ++ "/" ++ toString content.length ∧
    (serveRange content s (some e)).body.length = e - s + 1 ∧
    (∀ i, i < e - s + 1 → (serveRange content s (some e)).body[i]? = content[s + i]?) ∧
    serveRange content s none = serveRange content s (some (content.length - 1)) := by
  refine ⟨rfl, rfl, rfl, ?_, ?_, rfl⟩
  · simp only [serveRange, List.length_take, List.length_drop]
    omega
  · intro i hi
    simp only [serveRange]
    rw [List.getElem?_take, if_pos hi, List.getElem?_drop]

/-- C7 witness: `bytes=0-99` against a 1000-byte object: a 206 with
Content-Range `bytes 0-99/1000`, Content-Length 100, and exactly 100
bytes streamed, the first of them being byte 0 of the object. -/
theorem serveRange_spec_witness :
    (serveRange (List.range 1000) 0 (some 99)).status = 206 ∧
    (serveRange (List.range 1000) 0 (some 99)).contentLength = 100 ∧
    (serveRange (List.range 1000) 0 (some 99)).contentRange = "bytes 0-99/1000" ∧
    (serveRange (List.range 1000) 0 (some 99)).body.length = 100 ∧
    (serveRange (List.range 1000) 0 (some 99)).body[0]? = (List.range 1000)[0]? := by
  obtain ⟨h1, h2, h3, h4, h5, -⟩ :=
    serveRange_spec (List.range 1000) 0 99 (by omega) (by simp)
  refine ⟨h1, by omega, ?_, by omega, by simpa using h5 0 (by omega)⟩
  rw [h3, List.length_range]
  rfl

end Heksta
